import Mathlib

/-!
Verification development for the tasru library (DWARF type-graph navigation).

The definitions below are a shallow embedding of the relevant parts of the
source files `src/unit_info.rs`, `src/debug_types.rs`, `src/memory.rs` and
`src/lib.rs`:

* Machine integers (`u64`, `usize`) are modelled as `Nat`; `MemoryLocation`
  and `StructOffset` are newtypes over `u64` whose `+` and `*` are plain
  addition/multiplication, so they are flattened to `Nat`.
* The per-unit `HashMap<DebugItem, EntryIndex>` indexes paired with entity
  vectors are flattened to association lists `List (DebugItem × entity)`;
  the two-level dispatch through `symbol_unit_mapping` composes two finite-map
  lookups and is modelled by a single lookup.
* Rust `Result<T, DebugTypeError>` becomes `Except DebugTypeError T`,
  `Option` stays `Option`.
* The memory reader trait `memory::Read` is modelled by its byte-read
  function; `read_u16/32/64` are the default little-endian compositions from
  `memory.rs`.
* Strings are Lean `String`s; the name-splitting algorithm of `lib.rs` is
  stated on `List Char` (Rust byte indices returned by `find`/`rfind` are
  used only to split at pattern occurrences, so the character-list view is
  faithful).
-/

namespace Tasru

/-- `unit_info::DebugItem`: a stable offset into the debug-info section. -/
structure DebugItem where
  offset : Nat
deriving DecidableEq, Repr

/-- `unit_info::StructureMember`. -/
structure StructureMember where
  name : Option String
  kind : DebugItem
  offset : Nat
deriving DecidableEq, Repr

/-- `unit_info::Pointer`. -/
structure Pointer where
  name : Option String
  kind : DebugItem
deriving DecidableEq, Repr

/-- `unit_info::BaseType`. -/
structure BaseType where
  name : String
  size : Nat
deriving DecidableEq, Repr

/-- `unit_info::Union`. -/
structure Union where
  name : String
  members : List StructureMember
  size : Nat
deriving DecidableEq, Repr

/-- `unit_info::EnumerationVariant`. -/
structure EnumerationVariant where
  name : String
  discriminant : Option Nat
  kind : DebugItem
  offset : Nat
deriving DecidableEq, Repr

/-- `unit_info::Enumeration`. -/
structure Enumeration where
  name : String
  discriminant_offset : Nat
  discriminant_kind : DebugItem
  size : Nat
  variants : List EnumerationVariant
deriving DecidableEq, Repr

/-- `unit_info::Structure` (represents either a struct or an enum body). -/
structure Structure where
  name : String
  members : List StructureMember
  size : Nat
  containing_type : Option DebugItem
deriving DecidableEq, Repr

/-- `unit_info::Array`. -/
structure Array where
  kind : DebugItem
  lower_bound : Nat
  count : Nat
deriving DecidableEq, Repr

/-- `unit_info::Variable` (decl file/line omitted: never consulted by the
operations under study). -/
structure Variable where
  name : String
  kind : DebugItem
  location : Nat
  linkage_name : Option String
deriving DecidableEq, Repr

/-- `unit_info::Structure::member_named`: first member with the given name. -/
def Structure.member_named (s : Structure) (name : String) : Option StructureMember :=
  s.members.find? (fun member => member.name == some name)

/-- `unit_info::Union::member_named`: first member with the given name. -/
def Union.member_named (u : Union) (name : String) : Option StructureMember :=
  u.members.find? (fun member => member.name == some name)

/-- `unit_info::Enumeration::variant_with_discriminant`: positional lookup
`self.variants.get(discriminant)` with fallback to the first variant whose
`discriminant` is `None`. -/
def Enumeration.variant_with_discriminant (e : Enumeration) (discriminant : Nat) :
    Option EnumerationVariant :=
  match e.variants[discriminant]? with
  | some v => some v
  | none => e.variants.find? (fun variant => variant.discriminant.isNone)

/-- `unit_info::Enumeration::variant_named`. -/
def Enumeration.variant_named (e : Enumeration) (name : String) : Option EnumerationVariant :=
  e.variants.find? (fun variant => variant.name == name)

/-- The flattened registry: `DebugInfo` together with the per-unit
`SymbolCache` maps (`by_debug_item` per entity kind plus the two name maps,
each map value resolved through its entity vector). -/
structure DebugInfo where
  structures : List (DebugItem × Structure)
  enumerations : List (DebugItem × Enumeration)
  arrays : List (DebugItem × Array)
  pointers : List (DebugItem × Pointer)
  base_types : List (DebugItem × BaseType)
  unions : List (DebugItem × Union)
  vars : List (DebugItem × Variable)
  variable_names : List (String × Variable)
  demangled_variable_names : List (String × Variable)
deriving DecidableEq, Repr

/-- Finite-map lookup on an association list (models `HashMap::get` composed
with the entity-vector indexing). -/
def lookupItem {α : Type} (l : List (DebugItem × α)) (item : DebugItem) : Option α :=
  (l.find? (fun p => p.1 == item)).map (fun p => p.2)

/-- `DebugInfo::structure_from_item` (dispatching to `UnitInfo`). -/
def DebugInfo.structure_from_item (info : DebugInfo) (item : DebugItem) : Option Structure :=
  lookupItem info.structures item

/-- `DebugInfo::enumeration_from_item`. -/
def DebugInfo.enumeration_from_item (info : DebugInfo) (item : DebugItem) : Option Enumeration :=
  lookupItem info.enumerations item

/-- `DebugInfo::array_from_item`. -/
def DebugInfo.array_from_item (info : DebugInfo) (item : DebugItem) : Option Array :=
  lookupItem info.arrays item

/-- `DebugInfo::pointer_from_item`. -/
def DebugInfo.pointer_from_item (info : DebugInfo) (item : DebugItem) : Option Pointer :=
  lookupItem info.pointers item

/-- `DebugInfo::base_type_from_item`. -/
def DebugInfo.base_type_from_item (info : DebugInfo) (item : DebugItem) : Option BaseType :=
  lookupItem info.base_types item

/-- `DebugInfo::union_from_item`. -/
def DebugInfo.union_from_item (info : DebugInfo) (item : DebugItem) : Option Union :=
  lookupItem info.unions item

/-- `DebugInfo::variable_from_item`. -/
def DebugInfo.variable_from_item (info : DebugInfo) (item : DebugItem) : Option Variable :=
  lookupItem info.vars item

/-- `UnitInfo::size_from_item`: the if-let chain over the seven kind maps.
Structures, enumerations, base types and unions report their stored size;
arrays and pointers report `None`; an unregistered item reports `None`.
The array arm tests only map membership, exactly as the source does. -/
def DebugInfo.size_from_item (info : DebugInfo) (item : DebugItem) : Option Nat :=
  match info.structure_from_item item with
  | some val => some val.size
  | none =>
    match info.enumeration_from_item item with
    | some val => some val.size
    | none =>
      if (info.arrays.find? (fun p => p.1 == item)).isSome then
        none
      else
        match info.pointer_from_item item with
        | some _ => none
        | none =>
          match info.base_type_from_item item with
          | some val => some val.size
          | none => (info.union_from_item item).map (fun val => val.size)

/-- The memory reader capability `memory::Read`, reduced to its byte read;
`none` models a failed read (`Err`). -/
structure Memory where
  read8 : Nat → Option Nat

/-- `Read::read_u8`. -/
def Memory.read_u8 (m : Memory) (address : Nat) : Option Nat :=
  m.read8 address

/-- `Read::read_u16`: default little-endian composition of two byte reads. -/
def Memory.read_u16 (m : Memory) (address : Nat) : Option Nat := do
  let b0 ← m.read8 address
  let b1 ← m.read8 (address + 1)
  pure (b0 + b1 * 256)

/-- `Read::read_u32`: default little-endian composition of four byte reads. -/
def Memory.read_u32 (m : Memory) (address : Nat) : Option Nat := do
  let b0 ← m.read8 address
  let b1 ← m.read8 (address + 1)
  let b2 ← m.read8 (address + 2)
  let b3 ← m.read8 (address + 3)
  pure (b0 + b1 * 256 + b2 * 256 ^ 2 + b3 * 256 ^ 3)

/-- `Read::read_u64`: default little-endian composition of eight byte reads. -/
def Memory.read_u64 (m : Memory) (address : Nat) : Option Nat := do
  let b0 ← m.read8 address
  let b1 ← m.read8 (address + 1)
  let b2 ← m.read8 (address + 2)
  let b3 ← m.read8 (address + 3)
  let b4 ← m.read8 (address + 4)
  let b5 ← m.read8 (address + 5)
  let b6 ← m.read8 (address + 6)
  let b7 ← m.read8 (address + 7)
  pure (b0 + b1 * 256 + b2 * 256 ^ 2 + b3 * 256 ^ 3 + b4 * 256 ^ 4 + b5 * 256 ^ 5 +
    b6 * 256 ^ 6 + b7 * 256 ^ 7)

/-- Index of the last occurrence of the two-character pattern `::`
(`str::rfind("::")` in `split_namespace_and_name`). -/
def rfindColons : List Char → Option Nat
  | [] => none
  | c :: rest =>
    match rfindColons rest with
    | some i => some (i + 1)
    | none => if c = ':' ∧ rest.head? = some ':' then some 0 else none

/-- The `head = name up to the first '<'` step of `split_namespace_and_name`
(`kind.split_at(open_bracket_index).0`). -/
def kindWithoutGeneric (kind : List Char) : List Char :=
  match kind.findIdx? (fun c => c == '<') with
  | some i => kind.take i
  | none => kind

/-- The part of `split_namespace_and_name` after the first-character check:
the `dyn ` early return, then the split of the original string at the last
`::` occurring before the first `<`. -/
def split_namespace_and_name_rest (kind : List Char) : List Char × List Char :=
  match kind with
  | 'd' :: 'y' :: 'n' :: ' ' :: _ => ([], kind)
  | _ =>
    match rfindColons (kindWithoutGeneric kind) with
    | some separator_index => (kind.take separator_index, kind.drop (separator_index + 2))
    | none => ([], kind)

/-- `lib.rs::split_namespace_and_name`. Returns `(namespace, name)`. -/
def split_namespace_and_name (kind : List Char) : List Char × List Char :=
  match kind with
  | c :: _ =>
    if ¬ (c.isAlpha || c == '_') then ([], kind)
    else split_namespace_and_name_rest kind
  | [] => split_namespace_and_name_rest kind

/-- String-level wrapper for `split_namespace_and_name` as used by the
`*_from_type_at_address` lookups. -/
def split_nn_str (kind : String) : String × String :=
  let r := split_namespace_and_name kind.toList
  (String.mk r.1, String.mk r.2)

/-- `debug_types::DebugTypeError` (constructor names and payloads as in the
source, including the `NotRustSice` spelling). -/
inductive DebugTypeError where
  | MultipleMatches
  | MemberNotFound (owner member : String)
  | GenericNotFound (owner : String)
  | StructureNotFound (owner : String)
  | BaseTypeNotFound (owner : String)
  | UnionNotFound (owner : String)
  | VariantNotFound (owner variant : String)
  | EnumerationNotFound (owner : String)
  | ArrayNotFound (owner : String)
  | KindNotFound (owner : String) (member : Option String)
  | KindIncorrect (owner : String) (member : Option String) (attempted actual : String)
  | NotRustSice (owner : String)
  | ReadError
  | SizeError (size : Nat)
  | LocationMissing
  | VariableNotFound (path : String)
deriving DecidableEq, Repr

/-- `debug_types::DebugStructure` cursor (the borrowed `unit`/`info`
references are flattened to the single registry value). -/
structure DebugStructure where
  info : DebugInfo
  location : Option Nat
  offset : Nat
  structure_ : Structure

/-- `debug_types::DebugStructureMember` cursor. -/
structure DebugStructureMember where
  parent_name : String
  info : DebugInfo
  location : Option Nat
  offset : Nat
  structure_member : StructureMember

/-- `debug_types::DebugUnion` cursor. -/
structure DebugUnion where
  info : DebugInfo
  location : Option Nat
  offset : Nat
  union : Union

/-- `debug_types::DebugEnumerationVariant` cursor. -/
structure DebugEnumerationVariant where
  parent_name : String
  info : DebugInfo
  location : Option Nat
  offset : Nat
  variant : EnumerationVariant

/-- `debug_types::DebugEnumeration` cursor. -/
structure DebugEnumeration where
  info : DebugInfo
  location : Option Nat
  offset : Nat
  enumeration : Enumeration

/-- `debug_types::DebugPointer` cursor. -/
structure DebugPointer where
  info : DebugInfo
  location : Option Nat
  offset : Nat
  pointer : Pointer
  parent_name : String

/-- `debug_types::DebugBaseType` cursor. -/
structure DebugBaseType where
  location : Option Nat
  offset : Nat
  base_type : BaseType

/-- `debug_types::DebugArray` cursor. -/
structure DebugArray where
  info : DebugInfo
  location : Option Nat
  offset : Nat
  array : Array
  parent_name : String

/-- `debug_types::DebugArrayItem` cursor. -/
structure DebugArrayItem where
  info : DebugInfo
  location : Option Nat
  offset : Nat
  kind : DebugItem
  parent_name : String

/-- `debug_types::DebugArrayIterator`. -/
structure DebugArrayIterator where
  info : DebugInfo
  location : Option Nat
  offset : Nat
  array : Array
  index : Nat
  count : Nat
  element_size : Nat
  parent_name : String

/-- `debug_types::DebugVariable` cursor. -/
structure DebugVariable where
  info : DebugInfo
  variable_ : Variable

/-- `debug_types::DebugSlice`. -/
structure DebugSlice where
  info : DebugInfo
  location : Option Nat
  offset : Nat
  length : Nat
  data_ptr : Pointer
  parent_name : String

/-- `debug_types::DebugSliceBaseTypeIter`. -/
structure DebugSliceBaseTypeIter where
  location : Option Nat
  offset : Nat
  length : Nat
  current : Nat
  size : Nat
  base_type : BaseType

/-- `debug_types::DebugSliceStructureIter`. -/
structure DebugSliceStructureIter where
  info : DebugInfo
  location : Option Nat
  offset : Nat
  length : Nat
  current : Nat
  size : Nat
  structure_ : Structure

/-- `DebugStructure::member_named`: passes the location through unchanged and
adds the member's offset to the accumulated offset; a missing member fails
with `MemberNotFound`. -/
def DebugStructure.member_named (s : DebugStructure) (name : String) :
    Except DebugTypeError DebugStructureMember :=
  match s.structure_.member_named name with
  | some structure_member =>
    .ok { parent_name := s.structure_.name, info := s.info, location := s.location,
          offset := s.offset + structure_member.offset, structure_member }
  | none => .error (.MemberNotFound s.structure_.name name)

/-- `DebugUnion::member_named`: same shape as the structure version, but a
missing member fails with `UnionNotFound { owner }`. -/
def DebugUnion.member_named (u : DebugUnion) (name : String) :
    Except DebugTypeError DebugStructureMember :=
  match u.union.member_named name with
  | some structure_member =>
    .ok { parent_name := u.union.name, info := u.info, location := u.location,
          offset := u.offset + structure_member.offset, structure_member }
  | none => .error (.UnionNotFound u.union.name)

/-- `DebugStructureMember::find_alternatives`: names the kind actually
registered for the member's `DebugItem`, consulting the six kind maps in
source order. -/
def DebugStructureMember.find_alternatives (m : DebugStructureMember) (attempted : String) :
    DebugTypeError :=
  let member := m.structure_member.name
  let kind_index := m.structure_member.kind
  if (m.info.structure_from_item kind_index).isSome then
    .KindIncorrect m.parent_name member attempted "structure"
  else if (m.info.enumeration_from_item kind_index).isSome then
    .KindIncorrect m.parent_name member attempted "enumeration"
  else if (m.info.pointer_from_item kind_index).isSome then
    .KindIncorrect m.parent_name member attempted "pointer"
  else if (m.info.array_from_item kind_index).isSome then
    .KindIncorrect m.parent_name member attempted "array"
  else if (m.info.union_from_item kind_index).isSome then
    .KindIncorrect m.parent_name member attempted "union"
  else if (m.info.base_type_from_item kind_index).isSome then
    .KindIncorrect m.parent_name member attempted "base type"
  else
    .KindNotFound m.parent_name member

/-- `DebugStructureMember::structure`: descend into a structure-typed member,
applying the member's offset to both location and accumulated offset. -/
def DebugStructureMember.structure_ (m : DebugStructureMember) :
    Except DebugTypeError DebugStructure :=
  match m.info.structure_from_item m.structure_member.kind with
  | some s =>
    .ok { info := m.info,
          location := m.location.map (fun l => l + m.structure_member.offset),
          offset := m.offset + m.structure_member.offset,
          structure_ := s }
  | none => .error (m.find_alternatives "structure")

/-- `DebugStructureMember::enumeration`. -/
def DebugStructureMember.enumeration (m : DebugStructureMember) :
    Except DebugTypeError DebugEnumeration :=
  match m.info.enumeration_from_item m.structure_member.kind with
  | some enumeration =>
    .ok { info := m.info,
          location := m.location.map (fun l => l + m.structure_member.offset),
          offset := m.offset + m.structure_member.offset,
          enumeration }
  | none => .error (m.find_alternatives "enumeration")

/-- `DebugStructureMember::pointer`. -/
def DebugStructureMember.pointer (m : DebugStructureMember) :
    Except DebugTypeError DebugPointer :=
  match m.info.pointer_from_item m.structure_member.kind with
  | some pointer =>
    .ok { info := m.info,
          location := m.location.map (fun l => l + m.structure_member.offset),
          offset := m.offset + m.structure_member.offset,
          pointer, parent_name := m.parent_name }
  | none => .error (m.find_alternatives "pointer")

/-- `DebugStructureMember::array`. -/
def DebugStructureMember.array (m : DebugStructureMember) :
    Except DebugTypeError DebugArray :=
  match m.info.array_from_item m.structure_member.kind with
  | some array =>
    .ok { info := m.info,
          location := m.location.map (fun l => l + m.structure_member.offset),
          offset := m.offset + m.structure_member.offset,
          array, parent_name := m.parent_name }
  | none => .error (m.find_alternatives "array")

/-- `DebugStructureMember::union`. -/
def DebugStructureMember.union (m : DebugStructureMember) :
    Except DebugTypeError DebugUnion :=
  match m.info.union_from_item m.structure_member.kind with
  | some union =>
    .ok { info := m.info,
          location := m.location.map (fun l => l + m.structure_member.offset),
          offset := m.offset + m.structure_member.offset,
          union }
  | none => .error (m.find_alternatives "union")

/-- `DebugStructureMember::base_type`. -/
def DebugStructureMember.base_type (m : DebugStructureMember) :
    Except DebugTypeError DebugBaseType :=
  match m.info.base_type_from_item m.structure_member.kind with
  | some base_type =>
    .ok { location := m.location.map (fun l => l + m.structure_member.offset),
          offset := m.offset + m.structure_member.offset,
          base_type }
  | none => .error (m.find_alternatives "base type")

/-- `DebugStructureMember::location` (the accessor method). -/
def DebugStructureMember.locationValue (m : DebugStructureMember) : Except DebugTypeError Nat :=
  match m.location with
  | none => .error .LocationMissing
  | some location => .ok location

/-- `DebugBaseType::as_u8`: only a 1-byte base type is read. -/
def DebugBaseType.as_u8 (b : DebugBaseType) (memory_source : Memory) : Option Nat :=
  match b.location with
  | none => none
  | some address =>
    match b.base_type.size with
    | 1 => memory_source.read_u8 address
    | _ => none

/-- `DebugBaseType::as_u16`: widths 1 and 2 are read (zero-extended), anything
else yields `none`. -/
def DebugBaseType.as_u16 (b : DebugBaseType) (memory_source : Memory) : Option Nat :=
  match b.location with
  | none => none
  | some address =>
    match b.base_type.size with
    | 1 => memory_source.read_u8 address
    | 2 => memory_source.read_u16 address
    | _ => none

/-- `DebugBaseType::as_u32`: widths 1, 2 and 4 are read (zero-extended). -/
def DebugBaseType.as_u32 (b : DebugBaseType) (memory_source : Memory) : Option Nat :=
  match b.location with
  | none => none
  | some address =>
    match b.base_type.size with
    | 1 => memory_source.read_u8 address
    | 2 => memory_source.read_u16 address
    | 4 => memory_source.read_u32 address
    | _ => none

/-- `DebugBaseType::as_u64`: widths 1, 2, 4 and 8 are read (zero-extended). -/
def DebugBaseType.as_u64 (b : DebugBaseType) (memory_source : Memory) : Option Nat :=
  match b.location with
  | none => none
  | some address =>
    match b.base_type.size with
    | 1 => memory_source.read_u8 address
    | 2 => memory_source.read_u16 address
    | 4 => memory_source.read_u32 address
    | 8 => memory_source.read_u64 address
    | _ => none

/-- `DebugEnumeration::discriminant_size`. -/
def DebugEnumeration.discriminant_size (e : DebugEnumeration) : Except DebugTypeError Nat :=
  match e.info.base_type_from_item e.enumeration.discriminant_kind with
  | none => .error (.BaseTypeNotFound e.enumeration.name)
  | some discriminant => .ok discriminant.size

/-- `DebugEnumeration::variant_with_discriminant`: delegates to the positional
`Enumeration::variant_with_discriminant` and offsets the resulting cursor by
the variant's payload offset. -/
def DebugEnumeration.variant_with_discriminant (e : DebugEnumeration) (discriminant : Nat) :
    Except DebugTypeError DebugEnumerationVariant :=
  match e.enumeration.variant_with_discriminant discriminant with
  | some variant =>
    .ok { parent_name := e.enumeration.name, info := e.info,
          location := e.location.map (fun l => l + variant.offset),
          offset := e.offset + variant.offset, variant }
  | none => .error (.VariantNotFound e.enumeration.name (toString discriminant))

/-- `DebugEnumeration::variant_named`. -/
def DebugEnumeration.variant_named (e : DebugEnumeration) (name : String) :
    Except DebugTypeError DebugEnumerationVariant :=
  match e.enumeration.variant_named name with
  | some variant =>
    .ok { parent_name := e.enumeration.name, info := e.info,
          location := e.location.map (fun l => l + variant.offset),
          offset := e.offset + variant.offset, variant }
  | none => .error (.VariantNotFound e.enumeration.name name)

/-- `DebugEnumeration::location` (the accessor method). -/
def DebugEnumeration.locationValue (e : DebugEnumeration) : Except DebugTypeError Nat :=
  match e.location with
  | none => .error .LocationMissing
  | some location => .ok location

/-- `DebugEnumeration::variants`. -/
def DebugEnumeration.variants (e : DebugEnumeration) :
    Except DebugTypeError (List DebugEnumerationVariant) :=
  .ok (e.enumeration.variants.map (fun variant =>
    { parent_name := e.enumeration.name, info := e.info,
      location := e.location.map (fun l => l + variant.offset),
      offset := e.offset + variant.offset, variant }))

/-- `DebugEnumeration::variant(reader)`: fails with `LocationMissing` when
unbound; otherwise looks up the discriminant width via `size_from_item`, reads
a little-endian word of that width at the cursor's address (widths outside
`{1,2,4,8}` fail with `SizeError`), and dispatches to
`variant_with_discriminant`. -/
def DebugEnumeration.variant (e : DebugEnumeration) (memory_source : Memory) :
    Except DebugTypeError DebugEnumerationVariant :=
  match e.location with
  | none => .error .LocationMissing
  | some address =>
    match e.info.size_from_item e.enumeration.discriminant_kind with
    | none => .error (.KindNotFound e.enumeration.name none)
    | some discriminant_size =>
      match discriminant_size with
      | 1 =>
        match memory_source.read_u8 address with
        | none => .error .ReadError
        | some discriminant => e.variant_with_discriminant discriminant
      | 2 =>
        match memory_source.read_u16 address with
        | none => .error .ReadError
        | some discriminant => e.variant_with_discriminant discriminant
      | 4 =>
        match memory_source.read_u32 address with
        | none => .error .ReadError
        | some discriminant => e.variant_with_discriminant discriminant
      | 8 =>
        match memory_source.read_u64 address with
        | none => .error .ReadError
        | some discriminant => e.variant_with_discriminant discriminant
      | size => .error (.SizeError size)

/-- `DebugEnumerationVariant::structure`: descend into the variant's payload
struct; the source adds the variant's offset to the cursor (which
`variant_with_discriminant` has already offset) a second time. -/
def DebugEnumerationVariant.structure_ (v : DebugEnumerationVariant) :
    Except DebugTypeError DebugStructure :=
  match v.info.structure_from_item v.variant.kind with
  | some s =>
    .ok { info := v.info,
          location := v.location.map (fun l => l + v.variant.offset),
          offset := v.offset + v.variant.offset,
          structure_ := s }
  | none => .error (.StructureNotFound v.parent_name)

/-- `DebugPointer::structure`. -/
def DebugPointer.structure_ (p : DebugPointer) : Except DebugTypeError DebugStructure :=
  match p.info.structure_from_item p.pointer.kind with
  | some s =>
    .ok { info := p.info, location := p.location, offset := p.offset, structure_ := s }
  | none => .error (.StructureNotFound p.parent_name)

/-- `DebugPointer::follow`: read a 32-bit little-endian word at the cursor's
address, replace the location with the value read, reset the offset to 0. -/
def DebugPointer.follow (p : DebugPointer) (memory_source : Memory) :
    Except DebugTypeError DebugPointer :=
  match p.location with
  | none => .error .LocationMissing
  | some location =>
    match memory_source.read_u32 location with
    | none => .error .ReadError
    | some target => .ok { p with location := some target, offset := 0 }

/-- `DebugPointer::follow_unless_null`: `follow`, then fail with `ReadError`
when the new location is 0. -/
def DebugPointer.follow_unless_null (p : DebugPointer) (memory_source : Memory) :
    Except DebugTypeError DebugPointer :=
  match p.follow memory_source with
  | .error e => .error e
  | .ok new =>
    match new.location with
    | none => .error .ReadError
    | some l => if l = 0 then .error .ReadError else .ok new

/-- `DebugPointer::try_follow`: `follow`, then return `none` (instead of
failing) when the new location is 0. -/
def DebugPointer.try_follow (p : DebugPointer) (memory_source : Memory) :
    Except DebugTypeError (Option DebugPointer) :=
  match p.follow memory_source with
  | .error e => .error e
  | .ok new =>
    match new.location with
    | none => .error .ReadError
    | some l => if l = 0 then .ok none else .ok (some new)

/-- `DebugPointer::read_u8`. -/
def DebugPointer.read_u8 (p : DebugPointer) (offset : Nat) (memory_source : Memory) :
    Option Nat :=
  match p.location with
  | none => none
  | some location => memory_source.read_u8 (location + offset)

/-- `DebugPointer::location` (the accessor method). -/
def DebugPointer.locationValue (p : DebugPointer) : Except DebugTypeError Nat :=
  match p.location with
  | none => .error .LocationMissing
  | some location => .ok location

/-- `DebugArray::structure`. -/
def DebugArray.structure_ (a : DebugArray) : Option DebugStructure :=
  (a.info.structure_from_item a.array.kind).map (fun s =>
    { info := a.info, location := a.location, offset := a.offset, structure_ := s })

/-- `DebugArray::enumeration`. -/
def DebugArray.enumeration (a : DebugArray) : Option DebugEnumeration :=
  (a.info.enumeration_from_item a.array.kind).map (fun enumeration =>
    { info := a.info, location := a.location, offset := a.offset, enumeration })

/-- `DebugArray::iter`: requires the element size from `size_from_item`
(failing with `KindNotFound` otherwise) and positions the iterator at
index 0. -/
def DebugArray.iter (a : DebugArray) : Except DebugTypeError DebugArrayIterator :=
  match a.info.size_from_item a.array.kind with
  | none => .error (.KindNotFound a.parent_name none)
  | some element_size =>
    .ok { info := a.info, location := a.location, offset := a.offset, array := a.array,
          index := 0, count := a.array.count, element_size, parent_name := a.parent_name }

/-- `DebugArrayIterator::next` (`Iterator for DebugArrayIterator`): yields an
item whose location is advanced by `element_size * index`; the accumulated
offset is passed through unchanged. -/
def DebugArrayIterator.next (it : DebugArrayIterator) :
    Option (DebugArrayItem × DebugArrayIterator) :=
  if it.index ≥ it.count then none
  else
    some ({ info := it.info,
            location := it.location.map (fun l => l + it.element_size * it.index),
            offset := it.offset, kind := it.array.kind, parent_name := it.parent_name },
          { it with index := it.index + 1 })

/-- Drain an iterator into the list of its yields (fuelled by the remaining
count, which bounds the number of `next` calls that can succeed). -/
def DebugArrayIterator.toListAux : Nat → DebugArrayIterator → List DebugArrayItem
  | 0, _ => []
  | fuel + 1, it =>
    match it.next with
    | none => []
    | some (item, it2) => item :: DebugArrayIterator.toListAux fuel it2

/-- The full list of items yielded by a `DebugArrayIterator`. -/
def DebugArrayIterator.toList (it : DebugArrayIterator) : List DebugArrayItem :=
  DebugArrayIterator.toListAux (it.count - it.index) it

/-- `DebugArrayItem::structure`. -/
def DebugArrayItem.structure_ (item : DebugArrayItem) : Except DebugTypeError DebugStructure :=
  match item.info.structure_from_item item.kind with
  | some s =>
    .ok { info := item.info, location := item.location, offset := item.offset,
          structure_ := s }
  | none => .error (.StructureNotFound item.parent_name)

/-- `DebugArrayItem::enumeration`. -/
def DebugArrayItem.enumeration (item : DebugArrayItem) :
    Except DebugTypeError DebugEnumeration :=
  match item.info.enumeration_from_item item.kind with
  | some enumeration =>
    .ok { info := item.info, location := item.location, offset := item.offset, enumeration }
  | none => .error (.EnumerationNotFound item.parent_name)

/-- `DebugArrayItem::u8`: reads a byte only when bound and the element is a
1-byte base type. -/
def DebugArrayItem.u8 (item : DebugArrayItem) (memory_source : Memory) : Option Nat :=
  match item.location with
  | none => none
  | some location =>
    match item.info.base_type_from_item item.kind with
    | none => none
    | some base_type =>
      if base_type.size = 1 then memory_source.read_u8 location else none

/-- `DebugVariable::structure`: roots a structure cursor at the variable's
location with offset 0. -/
def DebugVariable.structure_ (v : DebugVariable) : Except DebugTypeError DebugStructure :=
  match v.info.structure_from_item v.variable_.kind with
  | some s =>
    .ok { info := v.info, location := some v.variable_.location, offset := 0,
          structure_ := s }
  | none => .error (.StructureNotFound v.variable_.name)

/-- `DebugVariable::enumeration`. -/
def DebugVariable.enumeration (v : DebugVariable) : Except DebugTypeError DebugEnumeration :=
  match v.info.enumeration_from_item v.variable_.kind with
  | some enumeration =>
    .ok { info := v.info, location := some v.variable_.location, offset := 0, enumeration }
  | none => .error (.EnumerationNotFound v.variable_.name)

/-- `DebugVariable::array`. -/
def DebugVariable.array (v : DebugVariable) : Except DebugTypeError DebugArray :=
  match v.info.array_from_item v.variable_.kind with
  | some array =>
    .ok { info := v.info, location := some v.variable_.location, offset := 0, array,
          parent_name := v.variable_.name }
  | none => .error (.ArrayNotFound v.variable_.name)

/-- `DebugStructure::as_slice`: special form for the two-member Rust slice
layout; reads `length`, follows `data_ptr`, and builds a `DebugSlice`. -/
def DebugStructure.as_slice (s : DebugStructure) (memory_source : Memory) :
    Except DebugTypeError DebugSlice :=
  if s.structure_.members.length ≠ 2 then .error (.NotRustSice s.structure_.name)
  else
    match s.member_named "length" with
    | .error e => .error e
    | .ok lengthMember =>
      match lengthMember.base_type with
      | .error e => .error e
      | .ok lengthBase =>
        match lengthBase.as_u64 memory_source with
        | none => .error .ReadError
        | some length =>
          match s.member_named "data_ptr" with
          | .error e => .error e
          | .ok dataPtrMember =>
            match dataPtrMember.pointer with
            | .error e => .error e
            | .ok dataPtr =>
              match dataPtr.follow_unless_null memory_source with
              | .error e => .error e
              | .ok followed =>
                .ok { info := s.info, location := followed.location, offset := s.offset,
                      length, data_ptr := followed.pointer,
                      parent_name := s.structure_.name }

/-- `DebugSlice::base_type_iter`. -/
def DebugSlice.base_type_iter (s : DebugSlice) :
    Except DebugTypeError DebugSliceBaseTypeIter :=
  match s.info.base_type_from_item s.data_ptr.kind with
  | none => .error (.BaseTypeNotFound s.parent_name)
  | some base_type =>
    match s.info.size_from_item s.data_ptr.kind with
    | none => .error (.KindNotFound "<todo>" none)
    | some element_size =>
      .ok { location := s.location, offset := s.offset, length := s.length, current := 0,
            size := element_size, base_type }

/-- `DebugSlice::structure_iter`. -/
def DebugSlice.structure_iter (s : DebugSlice) :
    Except DebugTypeError DebugSliceStructureIter :=
  match s.info.structure_from_item s.data_ptr.kind with
  | none => .error (.StructureNotFound s.parent_name)
  | some structure_ =>
    match s.info.size_from_item s.data_ptr.kind with
    | none => .error (.KindNotFound s.parent_name none)
    | some element_size =>
      .ok { info := s.info, location := s.location, offset := s.offset, length := s.length,
            current := 0, size := element_size, structure_ }

/-- `DebugInfo::variable_from_demangled_name` (the per-unit scan flattened to
one name-map lookup; first match wins). -/
def DebugInfo.variable_from_demangled_name (info : DebugInfo) (path : String) :
    Except DebugTypeError DebugVariable :=
  match (info.demangled_variable_names.find? (fun p => p.1 == path)).map (fun p => p.2) with
  | some v => .ok { info, variable_ := v }
  | none => .error (.VariableNotFound path)

/-- `DebugInfo::variable_from_name`. -/
def DebugInfo.variable_from_name (info : DebugInfo) (path : String) :
    Except DebugTypeError DebugVariable :=
  match (info.variable_names.find? (fun p => p.1 == path)).map (fun p => p.2) with
  | some v => .ok { info, variable_ := v }
  | none => .error (.VariableNotFound path)

/-- `DebugInfo::find_variable`. The per-unit `UnitInfo::find_variable` body is
not among the provided sources; modelled from the spec: "linear over units,
first match wins". -/
def DebugInfo.find_variable (info : DebugInfo) (predicate : Variable → Bool) :
    Except DebugTypeError DebugVariable :=
  match info.vars.find? (fun p => predicate p.2) with
  | some p => .ok { info, variable_ := p.2 }
  | none => .error (.VariableNotFound "")

/-- `DebugInfo::structure_from_type_at_address`. The `Structure::namespace()`
accessor called here is not among the provided sources; modelled from the
spec ("scans all registered items for a name+namespace match") by taking the
namespace of an entity as a parameter `ns`. An empty split namespace fails
with `StructureNotFound` before any scan. -/
def DebugInfo.structure_from_type_at_address (info : DebugInfo) (ns : Structure → String)
    (kind : String) (address : Nat) : Except DebugTypeError DebugStructure :=
  let split := split_nn_str kind
  if split.1 = "" then .error (.StructureNotFound kind)
  else
    match info.structures.find? (fun q => ns q.2 == split.1 && q.2.name == split.2) with
    | some q => .ok { info, location := some address, offset := 0, structure_ := q.2 }
    | none => .error (.StructureNotFound kind)

/-- `DebugInfo::structure_from_item_at_address`: scan the item mapping for
the target item and bind the registered structure at the given address; when
the item is absent or not registered as a structure the scan falls through
and fails with `StructureNotFound` carrying an empty owner, as the source
does. -/
def DebugInfo.structure_from_item_at_address (info : DebugInfo) (target_item : DebugItem)
    (address : Nat) : Except DebugTypeError DebugStructure :=
  match info.structure_from_item target_item with
  | some s => .ok { info, location := some address, offset := 0, structure_ := s }
  | none => .error (.StructureNotFound "")

/-- `DebugInfo::enumeration_from_type_at_address` (note: the empty-namespace
early failure uses `StructureNotFound`, as the source does). -/
def DebugInfo.enumeration_from_type_at_address (info : DebugInfo) (ns : Enumeration → String)
    (kind : String) (address : Nat) : Except DebugTypeError DebugEnumeration :=
  let split := split_nn_str kind
  if split.1 = "" then .error (.StructureNotFound kind)
  else
    match info.enumerations.find? (fun q => ns q.2 == split.1 && q.2.name == split.2) with
    | some q => .ok { info, location := some address, offset := 0, enumeration := q.2 }
    | none => .error (.EnumerationNotFound kind)

/-- `DebugInfo::union_from_type_at_address` (the empty-namespace early failure
uses `StructureNotFound`, as the source does). -/
def DebugInfo.union_from_type_at_address (info : DebugInfo) (ns : Union → String)
    (kind : String) (address : Nat) : Except DebugTypeError DebugUnion :=
  let split := split_nn_str kind
  if split.1 = "" then .error (.StructureNotFound kind)
  else
    match info.unions.find? (fun q => ns q.2 == split.1 && q.2.name == split.2) with
    | some q => .ok { info, location := some address, offset := 0, union := q.2 }
    | none => .error (.UnionNotFound kind)

/-! ### Concrete fixtures

A small registry used as the concrete instance for witnesses and
counterexamples: a `Point` structure over `u32`, several enumerations, an
array of `u32`, a pointer and a union. -/

def itemU32 : DebugItem := ⟨1⟩
def itemU8 : DebugItem := ⟨2⟩
def itemW3 : DebugItem := ⟨3⟩
def itemPoint : DebugItem := ⟨4⟩
def itemColor : DebugItem := ⟨5⟩
def itemArr : DebugItem := ⟨6⟩
def itemPtr : DebugItem := ⟨7⟩
def itemUn : DebugItem := ⟨8⟩
def itemW3Enum : DebugItem := ⟨9⟩
def itemOdd : DebugItem := ⟨10⟩
def itemNiche : DebugItem := ⟨11⟩

def btU32 : BaseType := { name := "u32", size := 4 }
def btU8 : BaseType := { name := "u8", size := 1 }
def btW3 : BaseType := { name := "w3", size := 3 }

def pointStruct : Structure :=
  { name := "Point",
    members := [ { name := some "x", kind := itemU32, offset := 0 },
                 { name := some "y", kind := itemU32, offset := 4 } ],
    size := 8, containing_type := none }

/-- An enum whose variant list is ordered so that positions do not agree with
discriminant values. -/
def oddEnum : Enumeration :=
  { name := "Odd", discriminant_offset := 0, discriminant_kind := itemU8, size := 1,
    variants := [ { name := "A", discriminant := some 5, kind := itemPoint, offset := 0 },
                  { name := "B", discriminant := some 0, kind := itemPoint, offset := 0 } ] }

/-- An enum whose discriminant base type has the unsupported width 3. -/
def w3Enum : Enumeration :=
  { name := "Weird", discriminant_offset := 0, discriminant_kind := itemW3, size := 4,
    variants := [ { name := "Only", discriminant := some 0, kind := itemPoint, offset := 0 } ] }

/-- An enum with a single variant whose payload offset is nonzero. -/
def nicheEnum : Enumeration :=
  { name := "N", discriminant_offset := 0, discriminant_kind := itemU8, size := 12,
    variants := [ { name := "V", discriminant := some 0, kind := itemPoint, offset := 4 } ] }

def arrU32 : Array := { kind := itemU32, lower_bound := 0, count := 2 }
def ptrU32 : Pointer := { name := some "p", kind := itemU32 }
def unionU : Union :=
  { name := "U", members := [ { name := some "a", kind := itemU32, offset := 0 } ], size := 4 }

def infoFix : DebugInfo :=
  { structures := [(itemPoint, pointStruct)],
    enumerations := [(itemColor, oddEnum), (itemW3Enum, w3Enum), (itemNiche, nicheEnum)],
    arrays := [(itemArr, arrU32)],
    pointers := [(itemPtr, ptrU32)],
    base_types := [(itemU32, btU32), (itemU8, btU8), (itemW3, btW3)],
    unions := [(itemUn, unionU)],
    vars := [],
    variable_names := [],
    demangled_variable_names := [] }

def dbgPoint : DebugStructure :=
  { info := infoFix, location := some 100, offset := 0, structure_ := pointStruct }

def dbgOdd : DebugEnumeration :=
  { info := infoFix, location := some 200, offset := 0, enumeration := oddEnum }

def dbgW3 : DebugEnumeration :=
  { info := infoFix, location := some 0, offset := 0, enumeration := w3Enum }

def dbgUnbound : DebugEnumeration :=
  { info := infoFix, location := none, offset := 0, enumeration := oddEnum }

def dbgNiche : DebugEnumeration :=
  { info := infoFix, location := some 100, offset := 0, enumeration := nicheEnum }

def dbgArr : DebugArray :=
  { info := infoFix, location := some 1000, offset := 0, array := arrU32, parent_name := "xs" }

def ptrFix : DebugPointer :=
  { info := infoFix, location := some 6000, offset := 0, pointer := ptrU32, parent_name := "p" }

/-- The iterator produced by `dbgArr.iter`. -/
def iterFix : DebugArrayIterator :=
  { info := infoFix, location := some 1000, offset := 0, array := arrU32, index := 0,
    count := 2, element_size := 4, parent_name := "xs" }

def dbgUnion : DebugUnion :=
  { info := infoFix, location := some 300, offset := 0, union := unionU }

/-- A memory image holding the little-endian word `0x00007000` at 6000. -/
def memFollow : Memory :=
  ⟨fun a =>
    if a = 6000 then some 0
    else if a = 6001 then some 112
    else if a = 6002 then some 0
    else if a = 6003 then some 0
    else none⟩

/-- A memory image where every read fails. -/
def memEmpty : Memory := ⟨fun _ => none⟩

def btFix : DebugBaseType := { location := some 8192, offset := 0, base_type := btU32 }

/-- A memory image holding the little-endian word `7` at 8192. -/
def memPoint : Memory :=
  ⟨fun a =>
    if a = 8192 then some 7
    else if a = 8193 then some 0
    else if a = 8194 then some 0
    else if a = 8195 then some 0
    else none⟩

/-! ### Claim theorems -/

/-- C5: for a pointer cursor bound at address `a`, `follow` reads the 32-bit
little-endian word at `a` (the composition of four byte reads), replaces the
location with the value read and resets the offset to 0; given that the read
succeeds with value `v`, `follow_unless_null` fails exactly when `v = 0`
(succeeding with the followed cursor otherwise), and `try_follow` returns
`none` for `v = 0` instead of failing. -/
theorem C5_pointer_follow (p : DebugPointer) (m : Memory) (a v : Nat)
    (hloc : p.location = some a) (hread : m.read_u32 a = some v) :
    p.follow m = .ok { p with location := some v, offset := 0 }
    ∧ (p.follow_unless_null m = .error .ReadError ↔ v = 0)
    ∧ (v ≠ 0 → p.follow_unless_null m = .ok { p with location := some v, offset := 0 })
    ∧ p.try_follow m =
        (if v = 0 then .ok none else .ok (some { p with location := some v, offset := 0 })) := by
  have hf : p.follow m = .ok { p with location := some v, offset := 0 } := by
    simp only [DebugPointer.follow, hloc, hread]
  refine ⟨hf, ?_, ?_, ?_⟩
  · simp only [DebugPointer.follow_unless_null, hf]
    by_cases hv : v = 0 <;> simp [hv]
  · intro hv
    simp only [DebugPointer.follow_unless_null, hf]
    simp [hv]
  · simp only [DebugPointer.try_follow, hf]

/-- C5 witness: the fixture pointer at 6000 follows the stored word
`0x00007000 = 28672`, with `follow_unless_null` succeeding. -/
theorem C5_pointer_follow_witness :
    ptrFix.follow memFollow = .ok { ptrFix with location := some 28672, offset := 0 }
    ∧ ptrFix.follow_unless_null memFollow =
        .ok { ptrFix with location := some 28672, offset := 0 } :=
  ⟨(C5_pointer_follow ptrFix memFollow 6000 28672 rfl rfl).1,
   (C5_pointer_follow ptrFix memFollow 6000 28672 rfl rfl).2.2.1 (by decide)⟩

/-- C6: `DebugEnumeration::variant(reader)` on an unbound cursor fails with
`LocationMissing` (for every memory source, so no read is performed); on a
bound cursor it reads a discriminant of the width given by
`size_from_item(discriminant_kind)`, failing with `SizeError` carrying that
width when it is outside `{1,2,4,8}`, and otherwise dispatching the
little-endian word of that width read at the cursor's address. -/
theorem C6_enum_variant_read (e : DebugEnumeration) (m : Memory) :
    (e.location = none → e.variant m = .error .LocationMissing)
    ∧ (∀ a w, e.location = some a →
        e.info.size_from_item e.enumeration.discriminant_kind = some w →
        ¬ (w = 1 ∨ w = 2 ∨ w = 4 ∨ w = 8) →
        e.variant m = .error (.SizeError w))
    ∧ (∀ a, e.location = some a →
        e.info.size_from_item e.enumeration.discriminant_kind = some 1 →
        e.variant m = (match m.read_u8 a with
          | none => .error .ReadError
          | some d => e.variant_with_discriminant d))
    ∧ (∀ a, e.location = some a →
        e.info.size_from_item e.enumeration.discriminant_kind = some 2 →
        e.variant m = (match m.read_u16 a with
          | none => .error .ReadError
          | some d => e.variant_with_discriminant d))
    ∧ (∀ a, e.location = some a →
        e.info.size_from_item e.enumeration.discriminant_kind = some 4 →
        e.variant m = (match m.read_u32 a with
          | none => .error .ReadError
          | some d => e.variant_with_discriminant d))
    ∧ (∀ a, e.location = some a →
        e.info.size_from_item e.enumeration.discriminant_kind = some 8 →
        e.variant m = (match m.read_u64 a with
          | none => .error .ReadError
          | some d => e.variant_with_discriminant d)) := by
  refine ⟨?_, ?_, ?_, ?_, ?_, ?_⟩
  · intro h
    simp only [DebugEnumeration.variant, h]
  · intro a w hl hs hw
    push_neg at hw
    obtain ⟨h1, h2, h4, h8⟩ := hw
    simp only [DebugEnumeration.variant, hl, hs]
  · intro a hl hs
    simp only [DebugEnumeration.variant, hl, hs]
  · intro a hl hs
    simp only [DebugEnumeration.variant, hl, hs]
  · intro a hl hs
    simp only [DebugEnumeration.variant, hl, hs]
  · intro a hl hs
    simp only [DebugEnumeration.variant, hl, hs]

/-- C6 witness: the enum with a 3-byte discriminant type fails with
`SizeError 3`, and the unbound enum fails with `LocationMissing`. -/
theorem C6_enum_variant_read_witness :
    dbgW3.variant memEmpty = .error (.SizeError 3)
    ∧ dbgUnbound.variant memEmpty = .error .LocationMissing :=
  ⟨(C6_enum_variant_read dbgW3 memEmpty).2.1 0 3 rfl rfl (by decide),
   (C6_enum_variant_read dbgUnbound memEmpty).1 rfl⟩

/-- C8: `size_from_item` returns the stored size for an item registered as a
structure, enumeration, base type or union, and `none` for an item registered
as an array or a pointer (the hypotheses trace the source's lookup chain:
earlier kind maps miss, the item's own kind map hits). -/
theorem C8_size_from_item (info : DebugInfo) (item : DebugItem) :
    (∀ s, info.structure_from_item item = some s → info.size_from_item item = some s.size)
    ∧ (info.structure_from_item item = none →
        ∀ e, info.enumeration_from_item item = some e → info.size_from_item item = some e.size)
    ∧ (info.structure_from_item item = none → info.enumeration_from_item item = none →
        info.array_from_item item ≠ none → info.size_from_item item = none)
    ∧ (info.structure_from_item item = none → info.enumeration_from_item item = none →
        info.array_from_item item = none → ∀ p, info.pointer_from_item item = some p →
        info.size_from_item item = none)
    ∧ (info.structure_from_item item = none → info.enumeration_from_item item = none →
        info.array_from_item item = none → info.pointer_from_item item = none →
        ∀ b, info.base_type_from_item item = some b → info.size_from_item item = some b.size)
    ∧ (info.structure_from_item item = none → info.enumeration_from_item item = none →
        info.array_from_item item = none → info.pointer_from_item item = none →
        info.base_type_from_item item = none → ∀ u, info.union_from_item item = some u →
        info.size_from_item item = some u.size) := by
  have harr : info.array_from_item item = none ↔
      ¬ (info.arrays.find? (fun p => p.1 == item)).isSome := by
    unfold DebugInfo.array_from_item lookupItem
    cases info.arrays.find? (fun p => p.1 == item) <;> simp
  refine ⟨?_, ?_, ?_, ?_, ?_, ?_⟩
  · intro s hs
    simp only [DebugInfo.size_from_item, hs]
  · intro h1 e he
    simp only [DebugInfo.size_from_item, h1, he]
  · intro h1 h2 h3
    have hsome : (info.arrays.find? (fun p => p.1 == item)).isSome := by
      by_contra hc
      exact h3 (harr.mpr hc)
    simp only [DebugInfo.size_from_item, h1, h2, hsome, if_true]
  · intro h1 h2 h3 p hp
    simp only [DebugInfo.size_from_item, h1, h2, hp, harr.mp h3]
    simp
  · intro h1 h2 h3 h4 b hb
    simp only [DebugInfo.size_from_item, h1, h2, h4, hb, harr.mp h3]
    simp
  · intro h1 h2 h3 h4 h5 u hu
    simp only [DebugInfo.size_from_item, h1, h2, h4, h5, hu, harr.mp h3]
    simp

/-- C8 witness: in the fixture registry the `Point` structure reports its
stored size 8, and the array item reports `none`. -/
theorem C8_size_from_item_witness :
    infoFix.size_from_item itemPoint = some 8
    ∧ infoFix.size_from_item itemArr = none :=
  ⟨(C8_size_from_item infoFix itemPoint).1 pointStruct rfl,
   (C8_size_from_item infoFix itemArr).2.2.1 rfl rfl (by decide)⟩

/-- C10: the scalar accessors of `DebugBaseType`. With no location every
accessor yields `none`. With a location `a` and base-type width `w`, the
accessor `as_uN` equals the little-endian read of width `w` at `a`
(zero-extension is the identity on the natural-number value) whenever
`w ∈ {1,2,4,8}` and `8·w ≤ N`, and yields `none` when `8·w > N` or `w`
is not in `{1,2,4,8}`; a failed read propagates as `none` since the read
itself is `none`. -/
theorem C10_base_type_scalars (b : DebugBaseType) (m : Memory) :
    (b.location = none →
      b.as_u8 m = none ∧ b.as_u16 m = none ∧ b.as_u32 m = none ∧ b.as_u64 m = none)
    ∧ ∀ a, b.location = some a →
      ((b.base_type.size = 1 →
          b.as_u8 m = m.read_u8 a ∧ b.as_u16 m = m.read_u8 a ∧
          b.as_u32 m = m.read_u8 a ∧ b.as_u64 m = m.read_u8 a)
       ∧ (b.base_type.size = 2 →
          b.as_u8 m = none ∧ b.as_u16 m = m.read_u16 a ∧
          b.as_u32 m = m.read_u16 a ∧ b.as_u64 m = m.read_u16 a)
       ∧ (b.base_type.size = 4 →
          b.as_u8 m = none ∧ b.as_u16 m = none ∧
          b.as_u32 m = m.read_u32 a ∧ b.as_u64 m = m.read_u32 a)
       ∧ (b.base_type.size = 8 →
          b.as_u8 m = none ∧ b.as_u16 m = none ∧
          b.as_u32 m = none ∧ b.as_u64 m = m.read_u64 a)
       ∧ (¬ (b.base_type.size = 1 ∨ b.base_type.size = 2 ∨
             b.base_type.size = 4 ∨ b.base_type.size = 8) →
          b.as_u8 m = none ∧ b.as_u16 m = none ∧
          b.as_u32 m = none ∧ b.as_u64 m = none)) := by
  constructor
  · intro h
    refine ⟨?_, ?_, ?_, ?_⟩
    · simp only [DebugBaseType.as_u8, h]
    · simp only [DebugBaseType.as_u16, h]
    · simp only [DebugBaseType.as_u32, h]
    · simp only [DebugBaseType.as_u64, h]
  · intro a ha
    refine ⟨?_, ?_, ?_, ?_, ?_⟩ <;> intro hw
    · refine ⟨?_, ?_, ?_, ?_⟩
      · simp only [DebugBaseType.as_u8, ha, hw]
      · simp only [DebugBaseType.as_u16, ha, hw]
      · simp only [DebugBaseType.as_u32, ha, hw]
      · simp only [DebugBaseType.as_u64, ha, hw]
    · refine ⟨?_, ?_, ?_, ?_⟩
      · simp only [DebugBaseType.as_u8, ha, hw]
      · simp only [DebugBaseType.as_u16, ha, hw]
      · simp only [DebugBaseType.as_u32, ha, hw]
      · simp only [DebugBaseType.as_u64, ha, hw]
    · refine ⟨?_, ?_, ?_, ?_⟩
      · simp only [DebugBaseType.as_u8, ha, hw]
      · simp only [DebugBaseType.as_u16, ha, hw]
      · simp only [DebugBaseType.as_u32, ha, hw]
      · simp only [DebugBaseType.as_u64, ha, hw]
    · refine ⟨?_, ?_, ?_, ?_⟩
      · simp only [DebugBaseType.as_u8, ha, hw]
      · simp only [DebugBaseType.as_u16, ha, hw]
      · simp only [DebugBaseType.as_u32, ha, hw]
      · simp only [DebugBaseType.as_u64, ha, hw]
    · push_neg at hw
      obtain ⟨h1, h2, h4, h8⟩ := hw
      refine ⟨?_, ?_, ?_, ?_⟩
      · simp only [DebugBaseType.as_u8, ha]
      · simp only [DebugBaseType.as_u16, ha]
      · simp only [DebugBaseType.as_u32, ha]
      · simp only [DebugBaseType.as_u64, ha]

/-- If `rfindColons l = some i` then `l` holds `:` at positions `i` and
`i + 1`, and `i + 2 ≤ l.length`. -/
theorem rfindColons_spec (l : List Char) (i : Nat) (h : rfindColons l = some i) :
    i + 2 ≤ l.length ∧ l[i]? = some ':' ∧ l[i + 1]? = some ':' := by
  induction l generalizing i with
  | nil => simp [rfindColons] at h
  | cons c rest ih =>
    cases hr : rfindColons rest with
    | some j =>
      rw [rfindColons, hr] at h
      injection h with h
      subst h
      obtain ⟨h1, h2, h3⟩ := ih j hr
      refine ⟨by simpa using Nat.succ_le_succ h1, ?_, ?_⟩
      · simpa using h2
      · simpa using h3
    | none =>
      rw [rfindColons, hr] at h
      simp only [] at h
      split at h
      · rename_i hcc
        obtain ⟨hc, hh⟩ := hcc
        subst hc
        injection h with h
        subst h
        cases rest with
        | nil => simp at hh
        | cons c2 tail =>
          simp only [List.head?_cons, Option.some.injEq] at hh
          subst hh
          simp
      · exact absurd h (by simp)

/-- An indexed element of `l.take t` is the corresponding element of `l`. -/
theorem getElem?_take_some {α : Type} (l : List α) (t i : Nat) (c : α)
    (h : (l.take t)[i]? = some c) : l[i]? = some c := by
  induction l generalizing t i with
  | nil => simp at h
  | cons a rest ih =>
    cases t with
    | zero => simp at h
    | succ t =>
      cases i with
      | zero => simpa using h
      | succ i =>
        simp only [List.take_succ_cons, List.getElem?_cons_succ] at h ⊢
        exact ih t i h

/-- Splitting a list around an adjacent pair of `:` characters and rejoining
with `::` reproduces the list. -/
theorem take_append_colons (l : List Char) (i : Nat)
    (h2 : l[i]? = some ':') (h3 : l[i + 1]? = some ':') :
    l.take i ++ ':' :: ':' :: l.drop (i + 2) = l := by
  induction l generalizing i with
  | nil => simp at h2
  | cons a rest ih =>
    cases i with
    | zero =>
      simp only [List.getElem?_cons_zero] at h2
      injection h2 with h2
      subst h2
      cases rest with
      | nil => simp at h3
      | cons b rest2 =>
        simp only [List.getElem?_cons_succ, List.getElem?_cons_zero] at h3
        injection h3 with h3
        subst h3
        simp
    | succ i =>
      simp only [List.getElem?_cons_succ] at h2 h3
      show (a :: rest).take (i + 1) ++ ':' :: ':' :: (a :: rest).drop ((i + 2) + 1) = a :: rest
      simp only [List.take_succ_cons, List.drop_succ_cons, List.cons_append, List.cons.injEq]
      exact ⟨by trivial, ih i h2 h3⟩

/-- `kindWithoutGeneric` is a prefix (a `take`) of its argument. -/
theorem kindWithoutGeneric_eq_take (l : List Char) :
    ∃ t, kindWithoutGeneric l = l.take t := by
  unfold kindWithoutGeneric
  cases h : l.findIdx? (fun c => c == '<') with
  | some i => exact ⟨i, rfl⟩
  | none => exact ⟨l.length, (List.take_length l).symm⟩

/-- `split_namespace_and_name_rest` either leaves the input whole with an
empty namespace, or splits it at a separator index reported by
`rfindColons` over the generic-free head. -/
theorem split_rest_spec (n : List Char) :
    split_namespace_and_name_rest n = ([], n)
    ∨ ∃ i, rfindColons (kindWithoutGeneric n) = some i ∧
        split_namespace_and_name_rest n = (n.take i, n.drop (i + 2)) := by
  unfold split_namespace_and_name_rest
  split
  · exact Or.inl rfl
  · cases h : rfindColons (kindWithoutGeneric n) with
    | some i => exact Or.inr ⟨i, rfl, rfl⟩
    | none => exact Or.inl rfl

/-- The split/join property for the post-check part of the algorithm, under
the knowledge that a nonempty input starts with an alphabetic character or
an underscore. -/
theorem split_rest_join (n : List Char)
    (hhead : ∀ c rest, n = c :: rest → (c.isAlpha || c == '_') = true) :
    ((split_namespace_and_name_rest n).1 ≠ [] →
      (split_namespace_and_name_rest n).1 ++ ':' :: ':' ::
        (split_namespace_and_name_rest n).2 = n)
    ∧ ((split_namespace_and_name_rest n).1 = [] →
        (split_namespace_and_name_rest n).2 = n) := by
  rcases split_rest_spec n with h | ⟨i, hi, h⟩
  · rw [h]
    exact ⟨fun hne => absurd rfl hne, fun _ => rfl⟩
  · rw [h]
    obtain ⟨t, ht⟩ := kindWithoutGeneric_eq_take n
    rw [ht] at hi
    obtain ⟨hlen, hc1, hc2⟩ := rfindColons_spec _ _ hi
    have hn1 : n[i]? = some ':' := getElem?_take_some n t i _ hc1
    have hn2 : n[i + 1]? = some ':' := getElem?_take_some n t (i + 1) _ hc2
    have hjoin := take_append_colons n i hn1 hn2
    have hipos : i ≠ 0 := by
      intro h0
      subst h0
      cases n with
      | nil => simp at hn1
      | cons c rest =>
        simp only [List.getElem?_cons_zero] at hn1
        injection hn1 with hx
        have hh := hhead c rest rfl
        rw [hx] at hh
        exact absurd hh (by decide)
    constructor
    · intro _
      exact hjoin
    · intro htake
      exfalso
      rcases List.take_eq_nil_iff.mp htake with h0 | h0
      · exact hipos h0
      · rw [h0] at hn1
        simp at hn1

/-- C7: the name-splitting function is idempotent under re-joining: whenever
the returned namespace is nonempty, joining namespace and name with `::`
reproduces the input exactly; and whenever the namespace is empty the
returned name is the whole input. -/
theorem C7_split_join (n : List Char) :
    ((split_namespace_and_name n).1 ≠ [] →
      (split_namespace_and_name n).1 ++ ':' :: ':' :: (split_namespace_and_name n).2 = n)
    ∧ ((split_namespace_and_name n).1 = [] → (split_namespace_and_name n).2 = n) := by
  cases n with
  | nil =>
    simp only [split_namespace_and_name]
    exact split_rest_join [] (fun c rest h => by cases h)
  | cons c rest =>
    simp only [split_namespace_and_name]
    by_cases hc : (c.isAlpha || c == '_') = true
    · rw [if_neg (not_not_intro hc)]
      refine split_rest_join (c :: rest) (fun c2 r2 h => ?_)
      injection h with h1 h2
      rw [← h1]
      exact hc
    · rw [if_pos hc]
      exact ⟨fun hne => absurd rfl hne, fun _ => rfl⟩

/-- C7 witness: `foo::Bar` re-joins to itself, and a namespace-free name is
returned whole. -/
theorem C7_split_join_witness :
    (split_namespace_and_name ("foo::Bar".toList)).1 ++ ':' :: ':' ::
      (split_namespace_and_name ("foo::Bar".toList)).2 = "foo::Bar".toList
    ∧ (split_namespace_and_name ("Point".toList)).2 = "Point".toList :=
  ⟨(C7_split_join ("foo::Bar".toList)).1 (by decide),
   (C7_split_join ("Point".toList)).2 (by decide)⟩

/-- C1 counterexample: in the enum `Odd` the variant at position 0 is named
`A` with discriminant `Some 5`, while `B` has discriminant `Some 0`; yet
`variant_with_discriminant 0` returns `A` — neither the variant whose
discriminant is `Some 0`, nor a variant with discriminant `None`, nor a
`VariantNotFound` failure, contradicting the claim at this input. -/
theorem C1_counterexample :
    (match dbgOdd.variant_with_discriminant 0 with
      | .ok v => some (v.variant.name, v.variant.discriminant)
      | .error _ => none) = some ("A", some 5)
    ∧ oddEnum.variants.map (fun v => (v.name, v.discriminant)) =
        [("A", some 5), ("B", some 0)]
    ∧ ("A" ≠ "B" ∧ some (5 : Nat) ≠ some 0) :=
  ⟨rfl, rfl, by decide⟩

/-- C1 (amended): `variant_with_discriminant d` is a positional lookup. It
returns the variant stored at index `d` of the variant list when `d` is in
range (cursor offset by that variant's payload offset); otherwise the first
variant whose discriminant is `None`; otherwise it fails with
`VariantNotFound`. When every variant's discriminant equals its own
position, the positional lookup agrees with discriminant matching: for every
variant `v` with discriminant `Some d` the returned variant carries `v`'s
name. -/
theorem C1_variant_with_discriminant_positional (e : DebugEnumeration) (d : Nat) :
    (∀ v, e.enumeration.variants[d]? = some v →
      e.variant_with_discriminant d = .ok
        { parent_name := e.enumeration.name, info := e.info,
          location := e.location.map (fun l => l + v.offset),
          offset := e.offset + v.offset, variant := v })
    ∧ (e.enumeration.variants[d]? = none →
        ∀ v, e.enumeration.variants.find? (fun x => x.discriminant.isNone) = some v →
          e.variant_with_discriminant d = .ok
            { parent_name := e.enumeration.name, info := e.info,
              location := e.location.map (fun l => l + v.offset),
              offset := e.offset + v.offset, variant := v })
    ∧ (e.enumeration.variants[d]? = none →
        e.enumeration.variants.find? (fun x => x.discriminant.isNone) = none →
        e.variant_with_discriminant d =
          .error (.VariantNotFound e.enumeration.name (toString d)))
    ∧ ((∀ i (hi : i < e.enumeration.variants.length),
          (e.enumeration.variants.get ⟨i, hi⟩).discriminant = some i) →
        ∀ v, v ∈ e.enumeration.variants → v.discriminant = some d →
          ∃ w, e.variant_with_discriminant d = .ok w ∧ w.variant.name = v.name) := by
  have hpos : ∀ v, e.enumeration.variants[d]? = some v →
      e.variant_with_discriminant d = .ok
        { parent_name := e.enumeration.name, info := e.info,
          location := e.location.map (fun l => l + v.offset),
          offset := e.offset + v.offset, variant := v } := by
    intro v hv
    simp only [DebugEnumeration.variant_with_discriminant,
      Enumeration.variant_with_discriminant, hv]
  refine ⟨hpos, ?_, ?_, ?_⟩
  · intro hnone v hf
    simp only [DebugEnumeration.variant_with_discriminant,
      Enumeration.variant_with_discriminant, hnone, hf]
  · intro hnone hf
    simp only [DebugEnumeration.variant_with_discriminant,
      Enumeration.variant_with_discriminant, hnone, hf]
  · intro hall v hv hd
    obtain ⟨i, hilt, hig⟩ := List.mem_iff_getElem.mp hv
    have hdisc := hall i hilt
    rw [List.get_eq_getElem] at hdisc
    rw [hig, hd] at hdisc
    injection hdisc with hdi
    subst hdi
    refine ⟨_, hpos v ?_, rfl⟩
    rw [List.getElem?_eq_getElem hilt, hig]

/-- C1 witness: the positional branch of the amended claim evaluated on the
`Odd` fixture at discriminant 0. -/
theorem C1_witness :
    dbgOdd.variant_with_discriminant 0 = .ok
      { parent_name := "Odd", info := infoFix, location := some 200, offset := 0,
        variant := { name := "A", discriminant := some 5, kind := itemPoint, offset := 0 } } :=
  (C1_variant_with_discriminant_positional dbgOdd 0).1
    { name := "A", discriminant := some 5, kind := itemPoint, offset := 0 } rfl

/-- C2, code evaluated at the failing input: for the enum cursor bound at
100 whose single variant has payload offset 4, selecting the variant places
the variant cursor at 104 = 100 + 4 with accumulated offset 4, and
`.structure()` then lands the payload struct cursor at 108 = 100 + 2·4 with
accumulated offset 8 — the variant's payload offset is applied a second
time, where the claim requires the payload cursor at 100 + 4. -/
theorem C2_payload_offset_applied_twice :
    (match dbgNiche.variant_with_discriminant 0 with
      | .ok v => some (v.location, v.offset)
      | .error _ => none) = some (some 104, 4)
    ∧ (match dbgNiche.variant_with_discriminant 0 with
        | .ok v =>
          match v.structure_ with
          | .ok st => some (st.location, st.offset)
          | .error _ => none
        | .error _ => none) = some (some 108, 8)
    ∧ (108 : Nat) ≠ 100 + 4 :=
  ⟨rfl, rfl, by decide⟩

/-- C3 counterexample: descending into member `y` (offset 4) of the `Point`
cursor bound at 100 yields a member cursor whose location field is still
100, not 100 + 4 as the claim requires (only the offset accumulator was
advanced). -/
theorem C3_counterexample :
    (match dbgPoint.member_named "y" with
      | .ok m => some (m.location, m.offset)
      | .error _ => none) = some (some 100, 4)
    ∧ some (100 : Nat) ≠ some (100 + 4) :=
  ⟨rfl, by decide⟩

/-- C3 (amended): `member_named` on structures and unions returns a member
cursor whose offset is the parent's offset plus the member's offset while
the location is passed through unchanged (the member offset is applied to
the location only when descending into the member's kind); a missing member
fails with `MemberNotFound{owner, member}` on a structure and with
`UnionNotFound{owner}` on a union. -/
theorem C3_member_named_offsets (name : String) :
    (∀ (s : DebugStructure) m, s.structure_.member_named name = some m →
      s.member_named name = .ok
        { parent_name := s.structure_.name, info := s.info,
          location := s.location, offset := s.offset + m.offset, structure_member := m })
    ∧ (∀ (s : DebugStructure), s.structure_.member_named name = none →
        s.member_named name = .error (.MemberNotFound s.structure_.name name))
    ∧ (∀ (u : DebugUnion) m, u.union.member_named name = some m →
        u.member_named name = .ok
          { parent_name := u.union.name, info := u.info,
            location := u.location, offset := u.offset + m.offset, structure_member := m })
    ∧ (∀ (u : DebugUnion), u.union.member_named name = none →
        u.member_named name = .error (.UnionNotFound u.union.name)) := by
  refine ⟨?_, ?_, ?_, ?_⟩
  · intro s m hm
    simp only [DebugStructure.member_named, hm]
  · intro s hm
    simp only [DebugStructure.member_named, hm]
  · intro u m hm
    simp only [DebugUnion.member_named, hm]
  · intro u hm
    simp only [DebugUnion.member_named, hm]

/-- C3 witness: the amended claim evaluated on the `Point` fixture, for the
present member `y` and an absent member on the union fixture. -/
theorem C3_witness :
    dbgPoint.member_named "y" = .ok
      { parent_name := "Point", info := infoFix, location := some 100, offset := 4,
        structure_member := { name := some "y", kind := itemU32, offset := 4 } }
    ∧ dbgUnion.member_named "zz" = .error (.UnionNotFound "U") :=
  ⟨(C3_member_named_offsets "y").1 dbgPoint
    { name := some "y", kind := itemU32, offset := 4 } rfl,
   (C3_member_named_offsets "zz").2.2.2 dbgUnion rfl⟩

/-- Behaviour of the array-iterator drain: starting from index `k`, the
iterator yields `count - k` items and the `j`-th of them has its location
advanced by `element_size * (k + j)` while the offset accumulator is passed
through unchanged. -/
theorem DebugArrayIterator.toListAux_spec (fuel : Nat) :
    ∀ (it : DebugArrayIterator), fuel = it.count - it.index →
      (DebugArrayIterator.toListAux fuel it).length = it.count - it.index ∧
      ∀ j, j < it.count - it.index →
        (DebugArrayIterator.toListAux fuel it)[j]? =
          some { info := it.info,
                 location := it.location.map (fun l => l + it.element_size * (it.index + j)),
                 offset := it.offset, kind := it.array.kind,
                 parent_name := it.parent_name } := by
  induction fuel with
  | zero =>
    intro it hf
    constructor
    · simp [DebugArrayIterator.toListAux]
      omega
    · intro j hj
      rw [← hf] at hj
      exact absurd hj (by simp)
  | succ fuel ih =>
    intro it hf
    have hlt : it.index < it.count := by omega
    have hnext : it.next =
        some ({ info := it.info,
                location := it.location.map (fun l => l + it.element_size * it.index),
                offset := it.offset, kind := it.array.kind,
                parent_name := it.parent_name },
              { it with index := it.index + 1 }) := by
      simp only [DebugArrayIterator.next]
      rw [if_neg (by omega)]
    have hstep : DebugArrayIterator.toListAux (fuel + 1) it =
        { info := it.info,
          location := it.location.map (fun l => l + it.element_size * it.index),
          offset := it.offset, kind := it.array.kind, parent_name := it.parent_name } ::
        DebugArrayIterator.toListAux fuel { it with index := it.index + 1 } := by
      rw [DebugArrayIterator.toListAux, hnext]
    obtain ⟨ihlen, ihget⟩ := ih { it with index := it.index + 1 }
      (by show fuel = it.count - (it.index + 1); omega)
    constructor
    · rw [hstep]
      simp only [List.length_cons, ihlen]
      show it.count - (it.index + 1) + 1 = it.count - it.index
      omega
    · intro j hj
      cases j with
      | zero =>
        rw [hstep]
        simp
      | succ j =>
        rw [hstep]
        simp only [List.getElem?_cons_succ]
        have harith : it.index + (j + 1) = (it.index + 1) + j := by omega
        rw [harith]
        exact ihget j (by show j < it.count - (it.index + 1); omega)

/-- C4 (amended): with a known element stride `s` and bound location `L`,
`iter` succeeds and yields exactly `count` items; the `i`-th yield has
location `L + i·s` while its offset accumulator equals the array cursor's
offset unchanged (the stride is not applied to the offset). -/
theorem C4_array_iter_yields (a : DebugArray) (s L : Nat)
    (hs : a.info.size_from_item a.array.kind = some s) (hL : a.location = some L) :
    a.iter = .ok { info := a.info, location := a.location, offset := a.offset,
                   array := a.array, index := 0, count := a.array.count,
                   element_size := s, parent_name := a.parent_name }
    ∧ ∀ (it : DebugArrayIterator), a.iter = .ok it →
        it.toList.length = a.array.count ∧
        ∀ i, i < a.array.count →
          it.toList[i]? = some { info := a.info, location := some (L + s * i),
                                 offset := a.offset, kind := a.array.kind,
                                 parent_name := a.parent_name } := by
  have hiter : a.iter = .ok
      { info := a.info, location := a.location, offset := a.offset,
        array := a.array, index := 0, count := a.array.count,
        element_size := s, parent_name := a.parent_name } := by
    simp only [DebugArray.iter, hs]
  refine ⟨hiter, ?_⟩
  intro it hit
  rw [hiter] at hit
  injection hit with hit
  obtain ⟨hlen, hget⟩ := DebugArrayIterator.toListAux_spec
    (a.array.count - 0)
    { info := a.info, location := a.location, offset := a.offset, array := a.array,
      index := 0, count := a.array.count, element_size := s,
      parent_name := a.parent_name } rfl
  constructor
  · rw [← hit]
    simpa [DebugArrayIterator.toList] using hlen
  · intro i hi
    have hg := hget i (by simpa using hi)
    rw [← hit]
    simp only [DebugArrayIterator.toList]
    simpa [hL] using hg

/-- C4 counterexample: iterating the two-element `u32` array cursor at 1000
with offset 0 yields items whose offsets are both 0; the claim demands that
the second item's offset be `0 + 1·4 = 4`. -/
theorem C4_counterexample :
    (match dbgArr.iter with
      | .ok it => some (it.toList.map (fun x => (x.location, x.offset)))
      | .error _ => none) = some [(some 1000, 0), (some 1004, 0)]
    ∧ (0 : Nat) ≠ 0 + 1 * 4 :=
  ⟨rfl, by decide⟩

/-- C4 witness: the amended claim evaluated on the array fixture: two yields,
the second located at 1004 with offset 0. -/
theorem C4_witness :
    iterFix.toList.length = 2
    ∧ iterFix.toList[1]? = some { info := infoFix, location := some 1004, offset := 0,
                                  kind := itemU32, parent_name := "xs" } := by
  have h := (C4_array_iter_yields dbgArr 4 1000 rfl rfl).2 iterFix rfl
  exact ⟨h.1, h.2 1 (by decide)⟩

/-- `find_alternatives` only builds `KindIncorrect` or `KindNotFound`. -/
theorem noMM_find_alternatives (m : DebugStructureMember) (attempted : String) :
    m.find_alternatives attempted ≠ .MultipleMatches := by
  simp only [DebugStructureMember.find_alternatives]
  split_ifs <;> exact fun hh => DebugTypeError.noConfusion hh

theorem noMM_structure_member_named (s : DebugStructure) (name : String)
    (err : DebugTypeError) (h : s.member_named name = .error err) :
    err ≠ .MultipleMatches := by
  unfold DebugStructure.member_named at h
  split at h
  · exact Except.noConfusion h
  · injection h with h
    subst h
    exact fun hh => DebugTypeError.noConfusion hh

theorem noMM_union_member_named (u : DebugUnion) (name : String)
    (err : DebugTypeError) (h : u.member_named name = .error err) :
    err ≠ .MultipleMatches := by
  unfold DebugUnion.member_named at h
  split at h
  · exact Except.noConfusion h
  · injection h with h
    subst h
    exact fun hh => DebugTypeError.noConfusion hh

theorem noMM_member_structure (m : DebugStructureMember) (err : DebugTypeError)
    (h : m.structure_ = .error err) : err ≠ .MultipleMatches := by
  unfold DebugStructureMember.structure_ at h
  split at h
  · exact Except.noConfusion h
  · injection h with h
    subst h
    exact noMM_find_alternatives m "structure"

theorem noMM_member_enumeration (m : DebugStructureMember) (err : DebugTypeError)
    (h : m.enumeration = .error err) : err ≠ .MultipleMatches := by
  unfold DebugStructureMember.enumeration at h
  split at h
  · exact Except.noConfusion h
  · injection h with h
    subst h
    exact noMM_find_alternatives m "enumeration"

theorem noMM_member_pointer (m : DebugStructureMember) (err : DebugTypeError)
    (h : m.pointer = .error err) : err ≠ .MultipleMatches := by
  unfold DebugStructureMember.pointer at h
  split at h
  · exact Except.noConfusion h
  · injection h with h
    subst h
    exact noMM_find_alternatives m "pointer"

theorem noMM_member_array (m : DebugStructureMember) (err : DebugTypeError)
    (h : m.array = .error err) : err ≠ .MultipleMatches := by
  unfold DebugStructureMember.array at h
  split at h
  · exact Except.noConfusion h
  · injection h with h
    subst h
    exact noMM_find_alternatives m "array"

theorem noMM_member_union (m : DebugStructureMember) (err : DebugTypeError)
    (h : m.union = .error err) : err ≠ .MultipleMatches := by
  unfold DebugStructureMember.union at h
  split at h
  · exact Except.noConfusion h
  · injection h with h
    subst h
    exact noMM_find_alternatives m "union"

theorem noMM_member_base_type (m : DebugStructureMember) (err : DebugTypeError)
    (h : m.base_type = .error err) : err ≠ .MultipleMatches := by
  unfold DebugStructureMember.base_type at h
  split at h
  · exact Except.noConfusion h
  · injection h with h
    subst h
    exact noMM_find_alternatives m "base type"

theorem noMM_member_locationValue (m : DebugStructureMember) (err : DebugTypeError)
    (h : m.locationValue = .error err) : err ≠ .MultipleMatches := by
  unfold DebugStructureMember.locationValue at h
  split at h
  · injection h with h
    subst h
    exact fun hh => DebugTypeError.noConfusion hh
  · exact Except.noConfusion h

theorem noMM_discriminant_size (e : DebugEnumeration) (err : DebugTypeError)
    (h : e.discriminant_size = .error err) : err ≠ .MultipleMatches := by
  unfold DebugEnumeration.discriminant_size at h
  split at h
  · injection h with h
    subst h
    exact fun hh => DebugTypeError.noConfusion hh
  · exact Except.noConfusion h

theorem noMM_variant_with_discriminant (e : DebugEnumeration) (d : Nat)
    (err : DebugTypeError) (h : e.variant_with_discriminant d = .error err) :
    err ≠ .MultipleMatches := by
  unfold DebugEnumeration.variant_with_discriminant at h
  split at h
  · exact Except.noConfusion h
  · injection h with h
    subst h
    exact fun hh => DebugTypeError.noConfusion hh

theorem noMM_variant_named (e : DebugEnumeration) (name : String)
    (err : DebugTypeError) (h : e.variant_named name = .error err) :
    err ≠ .MultipleMatches := by
  unfold DebugEnumeration.variant_named at h
  split at h
  · exact Except.noConfusion h
  · injection h with h
    subst h
    exact fun hh => DebugTypeError.noConfusion hh

theorem noMM_enum_locationValue (e : DebugEnumeration) (err : DebugTypeError)
    (h : e.locationValue = .error err) : err ≠ .MultipleMatches := by
  unfold DebugEnumeration.locationValue at h
  split at h
  · injection h with h
    subst h
    exact fun hh => DebugTypeError.noConfusion hh
  · exact Except.noConfusion h

theorem noMM_enum_variants (e : DebugEnumeration) (err : DebugTypeError)
    (h : e.variants = .error err) : err ≠ .MultipleMatches := by
  unfold DebugEnumeration.variants at h
  exact Except.noConfusion h

theorem noMM_variant_read (e : DebugEnumeration) (m : Memory) (err : DebugTypeError)
    (h : e.variant m = .error err) : err ≠ .MultipleMatches := by
  unfold DebugEnumeration.variant at h
  split at h
  · injection h with h
    subst h
    exact fun hh => DebugTypeError.noConfusion hh
  · split at h
    · injection h with h
      subst h
      exact fun hh => DebugTypeError.noConfusion hh
    · split at h
      · split at h
        · injection h with h
          subst h
          exact fun hh => DebugTypeError.noConfusion hh
        · exact noMM_variant_with_discriminant _ _ _ h
      · split at h
        · injection h with h
          subst h
          exact fun hh => DebugTypeError.noConfusion hh
        · exact noMM_variant_with_discriminant _ _ _ h
      · split at h
        · injection h with h
          subst h
          exact fun hh => DebugTypeError.noConfusion hh
        · exact noMM_variant_with_discriminant _ _ _ h
      · split at h
        · injection h with h
          subst h
          exact fun hh => DebugTypeError.noConfusion hh
        · exact noMM_variant_with_discriminant _ _ _ h
      · injection h with h
        subst h
        exact fun hh => DebugTypeError.noConfusion hh

theorem noMM_variant_structure (v : DebugEnumerationVariant) (err : DebugTypeError)
    (h : v.structure_ = .error err) : err ≠ .MultipleMatches := by
  unfold DebugEnumerationVariant.structure_ at h
  split at h
  · exact Except.noConfusion h
  · injection h with h
    subst h
    exact fun hh => DebugTypeError.noConfusion hh

theorem noMM_array_iter (a : DebugArray) (err : DebugTypeError)
    (h : a.iter = .error err) : err ≠ .MultipleMatches := by
  unfold DebugArray.iter at h
  split at h
  · injection h with h
    subst h
    exact fun hh => DebugTypeError.noConfusion hh
  · exact Except.noConfusion h

theorem noMM_array_item_structure (item : DebugArrayItem) (err : DebugTypeError)
    (h : item.structure_ = .error err) : err ≠ .MultipleMatches := by
  unfold DebugArrayItem.structure_ at h
  split at h
  · exact Except.noConfusion h
  · injection h with h
    subst h
    exact fun hh => DebugTypeError.noConfusion hh

theorem noMM_array_item_enumeration (item : DebugArrayItem) (err : DebugTypeError)
    (h : item.enumeration = .error err) : err ≠ .MultipleMatches := by
  unfold DebugArrayItem.enumeration at h
  split at h
  · exact Except.noConfusion h
  · injection h with h
    subst h
    exact fun hh => DebugTypeError.noConfusion hh

theorem noMM_pointer_structure (p : DebugPointer) (err : DebugTypeError)
    (h : p.structure_ = .error err) : err ≠ .MultipleMatches := by
  unfold DebugPointer.structure_ at h
  split at h
  · exact Except.noConfusion h
  · injection h with h
    subst h
    exact fun hh => DebugTypeError.noConfusion hh

theorem noMM_follow (p : DebugPointer) (m : Memory) (err : DebugTypeError)
    (h : p.follow m = .error err) : err ≠ .MultipleMatches := by
  unfold DebugPointer.follow at h
  split at h
  · injection h with h
    subst h
    exact fun hh => DebugTypeError.noConfusion hh
  · split at h
    · injection h with h
      subst h
      exact fun hh => DebugTypeError.noConfusion hh
    · exact Except.noConfusion h

theorem noMM_follow_unless_null (p : DebugPointer) (m : Memory) (err : DebugTypeError)
    (h : p.follow_unless_null m = .error err) : err ≠ .MultipleMatches := by
  unfold DebugPointer.follow_unless_null at h
  split at h
  · injection h with h
    subst h
    exact noMM_follow _ _ _ (by assumption)
  · split at h
    · injection h with h
      subst h
      exact fun hh => DebugTypeError.noConfusion hh
    · split at h
      · injection h with h
        subst h
        exact fun hh => DebugTypeError.noConfusion hh
      · exact Except.noConfusion h

theorem noMM_try_follow (p : DebugPointer) (m : Memory) (err : DebugTypeError)
    (h : p.try_follow m = .error err) : err ≠ .MultipleMatches := by
  unfold DebugPointer.try_follow at h
  split at h
  · injection h with h
    subst h
    exact noMM_follow _ _ _ (by assumption)
  · split at h
    · injection h with h
      subst h
      exact fun hh => DebugTypeError.noConfusion hh
    · split at h
      · exact Except.noConfusion h
      · exact Except.noConfusion h

theorem noMM_pointer_locationValue (p : DebugPointer) (err : DebugTypeError)
    (h : p.locationValue = .error err) : err ≠ .MultipleMatches := by
  unfold DebugPointer.locationValue at h
  split at h
  · injection h with h
    subst h
    exact fun hh => DebugTypeError.noConfusion hh
  · exact Except.noConfusion h

theorem noMM_variable_structure (v : DebugVariable) (err : DebugTypeError)
    (h : v.structure_ = .error err) : err ≠ .MultipleMatches := by
  unfold DebugVariable.structure_ at h
  split at h
  · exact Except.noConfusion h
  · injection h with h
    subst h
    exact fun hh => DebugTypeError.noConfusion hh

theorem noMM_variable_enumeration (v : DebugVariable) (err : DebugTypeError)
    (h : v.enumeration = .error err) : err ≠ .MultipleMatches := by
  unfold DebugVariable.enumeration at h
  split at h
  · exact Except.noConfusion h
  · injection h with h
    subst h
    exact fun hh => DebugTypeError.noConfusion hh

theorem noMM_variable_array (v : DebugVariable) (err : DebugTypeError)
    (h : v.array = .error err) : err ≠ .MultipleMatches := by
  unfold DebugVariable.array at h
  split at h
  · exact Except.noConfusion h
  · injection h with h
    subst h
    exact fun hh => DebugTypeError.noConfusion hh

theorem noMM_as_slice (s : DebugStructure) (m : Memory) (err : DebugTypeError)
    (h : s.as_slice m = .error err) : err ≠ .MultipleMatches := by
  unfold DebugStructure.as_slice at h
  split at h
  · injection h with h
    subst h
    exact fun hh => DebugTypeError.noConfusion hh
  · split at h
    · injection h with h
      subst h
      exact noMM_structure_member_named _ _ _ (by assumption)
    · split at h
      · injection h with h
        subst h
        exact noMM_member_base_type _ _ (by assumption)
      · split at h
        · injection h with h
          subst h
          exact fun hh => DebugTypeError.noConfusion hh
        · split at h
          · injection h with h
            subst h
            exact noMM_structure_member_named _ _ _ (by assumption)
          · split at h
            · injection h with h
              subst h
              exact noMM_member_pointer _ _ (by assumption)
            · split at h
              · injection h with h
                subst h
                exact noMM_follow_unless_null _ _ _ (by assumption)
              · exact Except.noConfusion h

theorem noMM_slice_base_type_iter (s : DebugSlice) (err : DebugTypeError)
    (h : s.base_type_iter = .error err) : err ≠ .MultipleMatches := by
  unfold DebugSlice.base_type_iter at h
  split at h
  · injection h with h
    subst h
    exact fun hh => DebugTypeError.noConfusion hh
  · split at h
    · injection h with h
      subst h
      exact fun hh => DebugTypeError.noConfusion hh
    · exact Except.noConfusion h

theorem noMM_slice_structure_iter (s : DebugSlice) (err : DebugTypeError)
    (h : s.structure_iter = .error err) : err ≠ .MultipleMatches := by
  unfold DebugSlice.structure_iter at h
  split at h
  · injection h with h
    subst h
    exact fun hh => DebugTypeError.noConfusion hh
  · split at h
    · injection h with h
      subst h
      exact fun hh => DebugTypeError.noConfusion hh
    · exact Except.noConfusion h

theorem noMM_variable_from_demangled_name (info : DebugInfo) (path : String)
    (err : DebugTypeError) (h : info.variable_from_demangled_name path = .error err) :
    err ≠ .MultipleMatches := by
  unfold DebugInfo.variable_from_demangled_name at h
  split at h
  · exact Except.noConfusion h
  · injection h with h
    subst h
    exact fun hh => DebugTypeError.noConfusion hh

theorem noMM_variable_from_name (info : DebugInfo) (path : String)
    (err : DebugTypeError) (h : info.variable_from_name path = .error err) :
    err ≠ .MultipleMatches := by
  unfold DebugInfo.variable_from_name at h
  split at h
  · exact Except.noConfusion h
  · injection h with h
    subst h
    exact fun hh => DebugTypeError.noConfusion hh

theorem noMM_find_variable (info : DebugInfo) (predicate : Variable → Bool)
    (err : DebugTypeError) (h : info.find_variable predicate = .error err) :
    err ≠ .MultipleMatches := by
  unfold DebugInfo.find_variable at h
  split at h
  · exact Except.noConfusion h
  · injection h with h
    subst h
    exact fun hh => DebugTypeError.noConfusion hh

theorem noMM_structure_from_type_at_address (info : DebugInfo) (ns : Structure → String)
    (kind : String) (address : Nat) (err : DebugTypeError)
    (h : info.structure_from_type_at_address ns kind address = .error err) :
    err ≠ .MultipleMatches := by
  simp only [DebugInfo.structure_from_type_at_address] at h
  split at h
  · injection h with h
    subst h
    exact fun hh => DebugTypeError.noConfusion hh
  · split at h
    · exact Except.noConfusion h
    · injection h with h
      subst h
      exact fun hh => DebugTypeError.noConfusion hh

theorem noMM_structure_from_item_at_address (info : DebugInfo) (target_item : DebugItem)
    (address : Nat) (err : DebugTypeError)
    (h : info.structure_from_item_at_address target_item address = .error err) :
    err ≠ .MultipleMatches := by
  unfold DebugInfo.structure_from_item_at_address at h
  split at h
  · exact Except.noConfusion h
  · injection h with h
    subst h
    exact fun hh => DebugTypeError.noConfusion hh

theorem noMM_enumeration_from_type_at_address (info : DebugInfo) (ns : Enumeration → String)
    (kind : String) (address : Nat) (err : DebugTypeError)
    (h : info.enumeration_from_type_at_address ns kind address = .error err) :
    err ≠ .MultipleMatches := by
  simp only [DebugInfo.enumeration_from_type_at_address] at h
  split at h
  · injection h with h
    subst h
    exact fun hh => DebugTypeError.noConfusion hh
  · split at h
    · exact Except.noConfusion h
    · injection h with h
      subst h
      exact fun hh => DebugTypeError.noConfusion hh

theorem noMM_union_from_type_at_address (info : DebugInfo) (ns : Union → String)
    (kind : String) (address : Nat) (err : DebugTypeError)
    (h : info.union_from_type_at_address ns kind address = .error err) :
    err ≠ .MultipleMatches := by
  simp only [DebugInfo.union_from_type_at_address] at h
  split at h
  · injection h with h
    subst h
    exact fun hh => DebugTypeError.noConfusion hh
  · split at h
    · exact Except.noConfusion h
    · injection h with h
      subst h
      exact fun hh => DebugTypeError.noConfusion hh

/-- C9: no navigation or lookup operation of the facade or registry ever
produces the `MultipleMatches` error: for every input, whenever one of the
embedded operations fails, the error it carries is a different variant
(`MultipleMatches` is declared but never constructed). -/
theorem C9_no_multiple_matches :
    (∀ (s : DebugStructure) (name : String) err,
      s.member_named name = .error err → err ≠ .MultipleMatches)
    ∧ (∀ (u : DebugUnion) (name : String) err,
        u.member_named name = .error err → err ≠ .MultipleMatches)
    ∧ (∀ (m : DebugStructureMember) err,
        m.structure_ = .error err → err ≠ .MultipleMatches)
    ∧ (∀ (m : DebugStructureMember) err,
        m.enumeration = .error err → err ≠ .MultipleMatches)
    ∧ (∀ (m : DebugStructureMember) err,
        m.pointer = .error err → err ≠ .MultipleMatches)
    ∧ (∀ (m : DebugStructureMember) err,
        m.array = .error err → err ≠ .MultipleMatches)
    ∧ (∀ (m : DebugStructureMember) err,
        m.union = .error err → err ≠ .MultipleMatches)
    ∧ (∀ (m : DebugStructureMember) err,
        m.base_type = .error err → err ≠ .MultipleMatches)
    ∧ (∀ (m : DebugStructureMember) err,
        m.locationValue = .error err → err ≠ .MultipleMatches)
    ∧ (∀ (e : DebugEnumeration) err,
        e.discriminant_size = .error err → err ≠ .MultipleMatches)
    ∧ (∀ (e : DebugEnumeration) (d : Nat) err,
        e.variant_with_discriminant d = .error err → err ≠ .MultipleMatches)
    ∧ (∀ (e : DebugEnumeration) (name : String) err,
        e.variant_named name = .error err → err ≠ .MultipleMatches)
    ∧ (∀ (e : DebugEnumeration) err,
        e.locationValue = .error err → err ≠ .MultipleMatches)
    ∧ (∀ (e : DebugEnumeration) err,
        e.variants = .error err → err ≠ .MultipleMatches)
    ∧ (∀ (e : DebugEnumeration) (m : Memory) err,
        e.variant m = .error err → err ≠ .MultipleMatches)
    ∧ (∀ (v : DebugEnumerationVariant) err,
        v.structure_ = .error err → err ≠ .MultipleMatches)
    ∧ (∀ (a : DebugArray) err,
        a.iter = .error err → err ≠ .MultipleMatches)
    ∧ (∀ (item : DebugArrayItem) err,
        item.structure_ = .error err → err ≠ .MultipleMatches)
    ∧ (∀ (item : DebugArrayItem) err,
        item.enumeration = .error err → err ≠ .MultipleMatches)
    ∧ (∀ (p : DebugPointer) err,
        p.structure_ = .error err → err ≠ .MultipleMatches)
    ∧ (∀ (p : DebugPointer) (m : Memory) err,
        p.follow m = .error err → err ≠ .MultipleMatches)
    ∧ (∀ (p : DebugPointer) (m : Memory) err,
        p.follow_unless_null m = .error err → err ≠ .MultipleMatches)
    ∧ (∀ (p : DebugPointer) (m : Memory) err,
        p.try_follow m = .error err → err ≠ .MultipleMatches)
    ∧ (∀ (p : DebugPointer) err,
        p.locationValue = .error err → err ≠ .MultipleMatches)
    ∧ (∀ (v : DebugVariable) err,
        v.structure_ = .error err → err ≠ .MultipleMatches)
    ∧ (∀ (v : DebugVariable) err,
        v.enumeration = .error err → err ≠ .MultipleMatches)
    ∧ (∀ (v : DebugVariable) err,
        v.array = .error err → err ≠ .MultipleMatches)
    ∧ (∀ (s : DebugStructure) (m : Memory) err,
        s.as_slice m = .error err → err ≠ .MultipleMatches)
    ∧ (∀ (s : DebugSlice) err,
        s.base_type_iter = .error err → err ≠ .MultipleMatches)
    ∧ (∀ (s : DebugSlice) err,
        s.structure_iter = .error err → err ≠ .MultipleMatches)
    ∧ (∀ (info : DebugInfo) (path : String) err,
        info.variable_from_demangled_name path = .error err → err ≠ .MultipleMatches)
    ∧ (∀ (info : DebugInfo) (path : String) err,
        info.variable_from_name path = .error err → err ≠ .MultipleMatches)
    ∧ (∀ (info : DebugInfo) (predicate : Variable → Bool) err,
        info.find_variable predicate = .error err → err ≠ .MultipleMatches)
    ∧ (∀ (info : DebugInfo) (ns : Structure → String) (kind : String) (address : Nat) err,
        info.structure_from_type_at_address ns kind address = .error err →
          err ≠ .MultipleMatches)
    ∧ (∀ (info : DebugInfo) (ns : Enumeration → String) (kind : String) (address : Nat) err,
        info.enumeration_from_type_at_address ns kind address = .error err →
          err ≠ .MultipleMatches)
    ∧ (∀ (info : DebugInfo) (ns : Union → String) (kind : String) (address : Nat) err,
        info.union_from_type_at_address ns kind address = .error err →
          err ≠ .MultipleMatches)
    ∧ (∀ (info : DebugInfo) (target_item : DebugItem) (address : Nat) err,
        info.structure_from_item_at_address target_item address = .error err →
          err ≠ .MultipleMatches) :=
  ⟨noMM_structure_member_named, noMM_union_member_named, noMM_member_structure,
   noMM_member_enumeration, noMM_member_pointer, noMM_member_array, noMM_member_union,
   noMM_member_base_type, noMM_member_locationValue, noMM_discriminant_size,
   noMM_variant_with_discriminant, noMM_variant_named, noMM_enum_locationValue,
   noMM_enum_variants, noMM_variant_read, noMM_variant_structure, noMM_array_iter,
   noMM_array_item_structure, noMM_array_item_enumeration, noMM_pointer_structure,
   noMM_follow, noMM_follow_unless_null, noMM_try_follow, noMM_pointer_locationValue,
   noMM_variable_structure, noMM_variable_enumeration, noMM_variable_array,
   noMM_as_slice, noMM_slice_base_type_iter, noMM_slice_structure_iter,
   noMM_variable_from_demangled_name, noMM_variable_from_name, noMM_find_variable,
   noMM_structure_from_type_at_address, noMM_enumeration_from_type_at_address,
   noMM_union_from_type_at_address, noMM_structure_from_item_at_address⟩

/-- C9 witness: a failing lookup on the fixture (a missing structure member)
carries `MemberNotFound`, which is not `MultipleMatches`. -/
theorem C9_no_multiple_matches_witness :
    DebugTypeError.MemberNotFound "Point" "zz" ≠ .MultipleMatches :=
  C9_no_multiple_matches.1 dbgPoint "zz" (.MemberNotFound "Point" "zz") rfl

/-- C10 witness: the `u32` fixture at 8192 reads the stored little-endian
word 7 through `as_u32`, and `as_u16` refuses the 4-byte width. -/
theorem C10_base_type_scalars_witness :
    btFix.as_u32 memPoint = memPoint.read_u32 8192
    ∧ memPoint.read_u32 8192 = some 7
    ∧ btFix.as_u16 memPoint = none :=
  ⟨(((C10_base_type_scalars btFix memPoint).2 8192 rfl).2.2.1 rfl).2.2.1,
   by decide,
   (((C10_base_type_scalars btFix memPoint).2 8192 rfl).2.2.1 rfl).2.1⟩

end Tasru
